import Mathlib

/- Verification development for the `liveactivitypayload` builder
   (src/liveactivitypayload/builder.go, package payload1).

   The builder keeps a document `content : map[string]interface{}` whose
   reserved key "aps" holds a pointer to an `aps` struct; serialization is
   `json.Marshal(p.content)` with Go `encoding/json` semantics: struct
   fields are emitted in declaration order using their tags (honouring
   `omitempty`), map keys are emitted in sorted order, strings are quoted
   with the default HTML-escaping, and unsupported values (func/chan)
   make the whole marshal fail.

   The embedding below mirrors that: `GoValue` is the caller-suppliable
   `interface{}` value universe (with `unsupported` standing for a
   non-serializable value), `alert` and `aps` transcribe the two structs
   with their tags, `Payload` is the document, and each Go method becomes
   a Lean function of the same name.  A Go map is represented canonically
   as an association list kept sorted by key (Go maps are unordered and
   are marshalled with sorted keys, so this is observationally faithful);
   the panic of the `p.content["aps"].(*aps)` type assertion is modelled
   by `Option`: a mutation returns `none` exactly when the Go code would
   panic. -/

/-- Lower-case hex digit for the `\u00XX` escapes of encoding/json. -/
def hexDigit (n : Nat) : Char :=
  if n < 10 then Char.ofNat (48 + n) else Char.ofNat (87 + n)

/-- Escape one character the way Go `encoding/json` does by default:
quote and backslash, the common control escapes, other control bytes as
`\u00XX`, the HTML characters as unicode escapes, and U+2028/U+2029. -/
def escapeChar (c : Char) : String :=
  if c = '"' then "\\\""
  else if c = '\\' then "\\\\"
  else if c = '\n' then "\\n"
  else if c = '\r' then "\\r"
  else if c = '\t' then "\\t"
  else if c.toNat < 32 then
    "\\u00" ++ String.singleton (hexDigit (c.toNat / 16)) ++
      String.singleton (hexDigit (c.toNat % 16))
  else if c = '<' then "\\u003c"
  else if c = '>' then "\\u003e"
  else if c = '&' then "\\u0026"
  else if c.toNat = 8232 then "\\u2028"
  else if c.toNat = 8233 then "\\u2029"
  else String.singleton c

/-- Go JSON string literal. -/
def quoteJson (s : String) : String :=
  "\"" ++ String.join (s.data.map escapeChar) ++ "\""

/-- Rendering of a `[]string` value. -/
def renderStrList (xs : List String) : String :=
  "[" ++ String.intercalate "," (xs.map quoteJson) ++ "]"

/-- Render a JSON object from already-rendered `(key, value)` pairs,
in the order given. -/
def renderPairs (ps : List (String × String)) : String :=
  "\x7b" ++ String.intercalate "," (ps.map (fun kv => quoteJson kv.1 ++ ":" ++ kv.2)) ++ "\x7d"

/-- Lexicographic order on character lists; Go compares strings
byte-wise, and UTF-8 byte order agrees with code-point order. -/
def charListLt : List Char → List Char → Bool
  | _, [] => false
  | [], _ :: _ => true
  | a :: as, b :: bs => if a < b then true else if a = b then charListLt as bs else false

/-- Go string `<`. -/
def strLt (a b : String) : Bool := charListLt a.data b.data

/-- Go string `<=`. -/
def strLe (a b : String) : Bool := ! strLt b a

/-- Insertion step of the by-key insertion sort used for map rendering. -/
def insertPair (q : String × String) : List (String × String) → List (String × String)
  | [] => [q]
  | r :: rest => if strLe q.1 r.1 then q :: r :: rest else r :: insertPair q rest

/-- Sort rendered `(key, value)` pairs by key: Go marshals map keys in
sorted order. -/
def sortPairs : List (String × String) → List (String × String)
  | [] => []
  | q :: rest => insertPair q (sortPairs rest)

/-- Lookup of a key among rendered `(key, value)` pairs; used to state
which keys appear in a rendered object. -/
def flookup (k : String) : List (String × String) → Option String
  | [] => none
  | (k₁, v) :: rest => if k₁ = k then some v else flookup k rest

/-- Caller-suppliable `interface{}` values: nil, strings, integers,
string slices, `map[string]interface{}` and a non-serializable value
(a func/chan, which makes `json.Marshal` fail).  The builder's own
`aps`/`alert` structs are unexported in Go, so a caller value can never
contain them; they live outside `GoValue`. -/
inductive GoValue where
  | nil
  | str (s : String)
  | int (n : Int)
  | strList (xs : List String)
  | mapVal (m : List (String × GoValue))
  | unsupported

mutual

/-- Go `json.Marshal` on a caller value; `none` is the marshal error. -/
def marshalGoValue : GoValue → Option String
  | .nil => some "null"
  | .str s => some (quoteJson s)
  | .int n => some (toString n)
  | .strList xs => some (renderStrList xs)
  | .mapVal m => (marshalGoEntries m).map (fun es => renderPairs (sortPairs es))
  | .unsupported => none

/-- Marshal each entry of a `map[string]interface{}`; any failing entry
fails the whole map, as in Go. -/
def marshalGoEntries : List (String × GoValue) → Option (List (String × String))
  | [] => some []
  | (k, v) :: rest =>
      match marshalGoValue v, marshalGoEntries rest with
      | some s, some es => some ((k, s) :: es)
      | _, _ => none

end


/-- The `alert` struct of builder.go (lines 43-56) with its JSON tags;
all twelve fields are `omitempty`.  Defaults are the Go zero values. -/
structure alert where
  Action : String := ""
  ActionLocKey : String := ""
  Body : String := ""
  LaunchImage : String := ""
  LocArgs : List String := []
  LocKey : String := ""
  Title : String := ""
  Subtitle : String := ""
  TitleLocArgs : List String := []
  TitleLocKey : String := ""
  SummaryArg : String := ""
  SummaryArgCount : Int := 0

/-- One optional struct field: emitted as a single `(key, rendered)` pair
unless its `omitempty` condition holds. -/
def optF (omitted : Prop) [Decidable omitted] (k v : String) : List (String × String) :=
  if omitted then [] else [(k, v)]

/-- Rendered fields of an `alert` value, in Go declaration order, with
the `omitempty` zero-value omissions. -/
def alertFields (al : alert) : List (String × String) :=
  optF (al.Action = "") "action" (quoteJson al.Action) ++
  optF (al.ActionLocKey = "") "action-loc-key" (quoteJson al.ActionLocKey) ++
  optF (al.Body = "") "body" (quoteJson al.Body) ++
  optF (al.LaunchImage = "") "launch-image" (quoteJson al.LaunchImage) ++
  optF (al.LocArgs = []) "loc-args" (renderStrList al.LocArgs) ++
  optF (al.LocKey = "") "loc-key" (quoteJson al.LocKey) ++
  optF (al.Title = "") "title" (quoteJson al.Title) ++
  optF (al.Subtitle = "") "subtitle" (quoteJson al.Subtitle) ++
  optF (al.TitleLocArgs = []) "title-loc-args" (renderStrList al.TitleLocArgs) ++
  optF (al.TitleLocKey = "") "title-loc-key" (quoteJson al.TitleLocKey) ++
  optF (al.SummaryArg = "") "summary-arg" (quoteJson al.SummaryArg) ++
  optF (al.SummaryArgCount = 0) "summary-arg-count" (toString al.SummaryArgCount)

/-- Marshal of a `*alert` value (struct fields in declaration order). -/
def marshalAlert (al : alert) : String := renderPairs (alertFields al)

/-- The runtime content of the `Alert interface{}` field of `aps`: either
whatever value the caller handed to `Payload.Alert` (including nil), or
the `*alert` struct installed by the lazy `alert()` helper. -/
inductive AlertField where
  | goval (v : GoValue)
  | structured (al : alert)

/-- The `aps` struct of builder.go (lines 34-41) with its JSON tags:
`alert,omitempty`, then `timestamp`, `event`, `content_state`,
`attributes_type`, `attributes` - none of which are `omitempty`. -/
structure aps where
  Alert : AlertField := AlertField.goval GoValue.nil
  Timestamp : Int := 0
  Event : String := ""
  ContentState : GoValue := GoValue.nil
  AttributesType : String := ""
  Attributes : GoValue := GoValue.nil

/-- The `alert()` helper of `aps` (builder.go lines 263-268): if the
`Alert` field does not currently hold a `*alert`, a fresh zero `alert`
takes its place; the resulting struct is what the caller mutates. -/
def aps.alertBlock (a : aps) : alert :=
  match a.Alert with
  | AlertField.structured al => al
  | _ => {}

/-- Rendered `alert` field of `aps`: omitted when the interface is nil
(`omitempty`), a marshal of the caller value when one was set, and the
struct rendering when the lazy helper installed a `*alert`. -/
def alertFieldOf : AlertField → Option (List (String × String))
  | AlertField.goval GoValue.nil => some []
  | AlertField.goval v => (marshalGoValue v).map (fun s => [("alert", s)])
  | AlertField.structured al => some [("alert", marshalAlert al)]

/-- Rendered fields of an `aps` value in Go declaration order; fails when
a caller value inside it cannot be marshalled. -/
def apsFields (a : aps) : Option (List (String × String)) :=
  match alertFieldOf a.Alert, marshalGoValue a.ContentState, marshalGoValue a.Attributes with
  | some ap, some cs, some ats =>
      some (ap ++ [("timestamp", toString a.Timestamp), ("event", quoteJson a.Event),
        ("content_state", cs), ("attributes_type", quoteJson a.AttributesType),
        ("attributes", ats)])
  | _, _, _ => none

/-- Marshal of a `*aps` value. -/
def marshalApsObj (a : aps) : Option String := (apsFields a).map renderPairs

/-- A value stored in the top-level document map: the reserved `*aps`
block, or an arbitrary caller value added through `Custom`/`Mdm`. -/
inductive TopValue where
  | apsV (a : aps)
  | goval (v : GoValue)

/-- Map lookup on the document. -/
def lookupTop (k : String) : List (String × TopValue) → Option TopValue
  | [] => none
  | (k₁, v) :: rest => if k₁ = k then some v else lookupTop k rest

/-- Map store `m[k] = v` on the canonical sorted association list. -/
def mapInsert (k : String) (v : TopValue) : List (String × TopValue) → List (String × TopValue)
  | [] => [(k, v)]
  | (k₁, v₁) :: rest =>
      if k = k₁ then (k, v) :: rest
      else if strLt k k₁ then (k, v) :: (k₁, v₁) :: rest
      else (k₁, v₁) :: mapInsert k v rest

/-- The `Payload` struct: one document map (builder.go lines 30-32). -/
structure Payload where
  content : List (String × TopValue)

/-- `NewPayload` (builder.go lines 59-65): the document holds only
`"aps"` mapped to a zero `aps` struct. -/
def NewPayload : Payload :=
  ⟨[("aps", TopValue.apsV {})]⟩

/-- The `p.aps()` accessor: the type assertion `p.content["aps"].(*aps)`
yields the block, or panics (`none`) when the entry is not a `*aps`. -/
def Payload.apsLookup (p : Payload) : Option aps :=
  match lookupTop "aps" p.content with
  | some (TopValue.apsV a) => some a
  | _ => none

/-- Mutation through `p.aps()`: look the block up (panicking - `none` -
when the assertion fails) and store the updated struct back. -/
def Payload.updAps (p : Payload) (f : aps → aps) : Option Payload :=
  match lookupTop "aps" p.content with
  | some (TopValue.apsV a) => some ⟨mapInsert "aps" (TopValue.apsV (f a)) p.content⟩
  | _ => none

/-- `Payload.Alert` (builder.go lines 71-74): `p.aps().Alert = alert`. -/
def Payload.Alert (p : Payload) (v : GoValue) : Option Payload :=
  p.updAps (fun a => { a with Alert := AlertField.goval v })

/-- `Payload.Custom` (lines 82-85): `p.content[key] = val`. -/
def Payload.Custom (p : Payload) (key : String) (val : GoValue) : Payload :=
  ⟨mapInsert key (TopValue.goval val) p.content⟩

/-- `Payload.AlertTitle` (lines 94-97): `p.aps().alert().Title = title`. -/
def Payload.AlertTitle (p : Payload) (title : String) : Option Payload :=
  p.updAps (fun a => { a with Alert := AlertField.structured { a.alertBlock with Title := title } })

/-- `Payload.AlertTitleLocKey`: `p.aps().alert().TitleLocKey = key`. -/
def Payload.AlertTitleLocKey (p : Payload) (key : String) : Option Payload :=
  p.updAps (fun a => { a with Alert := AlertField.structured { a.alertBlock with TitleLocKey := key } })

/-- `Payload.AlertTitleLocArgs`: `p.aps().alert().TitleLocArgs = args`. -/
def Payload.AlertTitleLocArgs (p : Payload) (args : List String) : Option Payload :=
  p.updAps (fun a => { a with Alert := AlertField.structured { a.alertBlock with TitleLocArgs := args } })

/-- `Payload.AlertSubtitle`: `p.aps().alert().Subtitle = subtitle`. -/
def Payload.AlertSubtitle (p : Payload) (subtitle : String) : Option Payload :=
  p.updAps (fun a => { a with Alert := AlertField.structured { a.alertBlock with Subtitle := subtitle } })

/-- `Payload.AlertBody`: `p.aps().alert().Body = body`. -/
def Payload.AlertBody (p : Payload) (body : String) : Option Payload :=
  p.updAps (fun a => { a with Alert := AlertField.structured { a.alertBlock with Body := body } })

/-- `Payload.AlertLaunchImage`: `p.aps().alert().LaunchImage = image`. -/
def Payload.AlertLaunchImage (p : Payload) (image : String) : Option Payload :=
  p.updAps (fun a => { a with Alert := AlertField.structured { a.alertBlock with LaunchImage := image } })

/-- `Payload.AlertLocArgs`: `p.aps().alert().LocArgs = args`. -/
def Payload.AlertLocArgs (p : Payload) (args : List String) : Option Payload :=
  p.updAps (fun a => { a with Alert := AlertField.structured { a.alertBlock with LocArgs := args } })

/-- `Payload.AlertLocKey`: `p.aps().alert().LocKey = key`. -/
def Payload.AlertLocKey (p : Payload) (key : String) : Option Payload :=
  p.updAps (fun a => { a with Alert := AlertField.structured { a.alertBlock with LocKey := key } })

/-- `Payload.AlertAction`: `p.aps().alert().Action = action`. -/
def Payload.AlertAction (p : Payload) (action : String) : Option Payload :=
  p.updAps (fun a => { a with Alert := AlertField.structured { a.alertBlock with Action := action } })

/-- `Payload.AlertActionLocKey`: `p.aps().alert().ActionLocKey = key`. -/
def Payload.AlertActionLocKey (p : Payload) (key : String) : Option Payload :=
  p.updAps (fun a => { a with Alert := AlertField.structured { a.alertBlock with ActionLocKey := key } })

/-- `Payload.AlertSummaryArg`: `p.aps().alert().SummaryArg = key`. -/
def Payload.AlertSummaryArg (p : Payload) (key : String) : Option Payload :=
  p.updAps (fun a => { a with Alert := AlertField.structured { a.alertBlock with SummaryArg := key } })

/-- `Payload.AlertSummaryArgCount`: `p.aps().alert().SummaryArgCount = key`. -/
def Payload.AlertSummaryArgCount (p : Payload) (key : Int) : Option Payload :=
  p.updAps (fun a => { a with Alert := AlertField.structured { a.alertBlock with SummaryArgCount := key } })

/-- `Payload.Mdm` (lines 222-225): `p.content["mdm"] = mdm`. -/
def Payload.Mdm (p : Payload) (mdm : String) : Payload :=
  ⟨mapInsert "mdm" (TopValue.goval (GoValue.str mdm)) p.content⟩

/-- `Payload.Timestamp`: `p.aps().Timestamp = t`. -/
def Payload.Timestamp (p : Payload) (t : Int) : Option Payload :=
  p.updAps (fun a => { a with Timestamp := t })

/-- `Payload.Event`: `p.aps().Event = event`. -/
def Payload.Event (p : Payload) (event : String) : Option Payload :=
  p.updAps (fun a => { a with Event := event })

/-- `Payload.ContentState`: `p.aps().ContentState = contentState`. -/
def Payload.ContentState (p : Payload) (contentState : GoValue) : Option Payload :=
  p.updAps (fun a => { a with ContentState := contentState })

/-- `Payload.AttributesType`: `p.aps().AttributesType = attributesType`. -/
def Payload.AttributesType (p : Payload) (attributesType : String) : Option Payload :=
  p.updAps (fun a => { a with AttributesType := attributesType })

/-- `Payload.Attributes`: `p.aps().Attributes = make(map[string]interface{})`. -/
def Payload.Attributes (p : Payload) : Option Payload :=
  p.updAps (fun a => { a with Attributes := GoValue.mapVal [] })

/-- Marshal of one top-level document value. -/
def marshalTopValue : TopValue → Option String
  | TopValue.apsV a => marshalApsObj a
  | TopValue.goval v => marshalGoValue v

/-- Marshal of the document entries; any failing entry fails the whole
document, as in Go. -/
def marshalEntriesTop : List (String × TopValue) → Option (List (String × String))
  | [] => some []
  | (k, v) :: rest =>
      match marshalTopValue v, marshalEntriesTop rest with
      | some s, some es => some ((k, s) :: es)
      | _, _ => none

/-- `Payload.MarshalJSON` (builder.go lines 254-257):
`json.Marshal(p.content)` - a map marshal, keys in sorted order. -/
def Payload.MarshalJSON (p : Payload) : Option String :=
  (marshalEntriesTop p.content).map (fun es => renderPairs (sortPairs es))

/-- Observation used by the theorems: the current runtime value of the
`aps.Alert` interface field. -/
def Payload.getAlert (p : Payload) : Option AlertField :=
  (p.apsLookup).map aps.Alert

/-- Abbreviation for the document reached by storing an updated alert
block back through `p.aps().alert()`. -/
def withAlert (p : Payload) (a : aps) (al : alert) : Payload :=
  ⟨mapInsert "aps" (TopValue.apsV { a with Alert := AlertField.structured al }) p.content⟩

/-- Modelled from the spec: the aps block of the repository's second
builder variant, which is not under src/ (src's liveactivitypayload
builder has no dismissal-date at all).  Per spec section 3 and the
field-omission table: `alert` omitted when never set, `timestamp`,
`event`, `content-state` and `attributes-type` always emitted (hyphenated
keys), `attributes` omitted when never set, `dismissal-date` omitted
when zero/unset. -/
structure apsSpec where
  Alert : AlertField := AlertField.goval GoValue.nil
  Timestamp : Int := 0
  Event : String := ""
  ContentState : GoValue := GoValue.nil
  AttributesType : String := ""
  Attributes : Option GoValue := none
  DismissalDate : Int := 0

/-- Modelled from the spec: `setDismissalDate(t: integer)` is a direct
field assignment on the aps block. -/
def apsSpec.SetDismissalDate (a : apsSpec) (t : Int) : apsSpec :=
  { a with DismissalDate := t }

/-- Modelled from the spec: rendered `attributes` field - omitted when
never set, marshalled caller value otherwise. -/
def attrsFieldOf : Option GoValue → Option (List (String × String))
  | none => some []
  | some v => (marshalGoValue v).map (fun s => [("attributes", s)])

/-- Modelled from the spec: rendered fields of the spec's aps block, in
the order of the spec's canonical wire shape (section 6), applying the
omission table of section 4. -/
def apsSpecFields (a : apsSpec) : Option (List (String × String)) :=
  match alertFieldOf a.Alert, marshalGoValue a.ContentState, attrsFieldOf a.Attributes with
  | some ap, some cs, some ats =>
      some (ap ++ [("timestamp", toString a.Timestamp), ("event", quoteJson a.Event),
        ("content-state", cs), ("attributes-type", quoteJson a.AttributesType)] ++ ats ++
        optF (a.DismissalDate = 0) "dismissal-date" (toString a.DismissalDate))
  | _, _, _ => none

/-- Modelled from the spec: serialization of the spec's aps block. -/
def marshalApsSpec (a : apsSpec) : Option String := (apsSpecFields a).map renderPairs

/-- Every document entry marshals; this is what makes the whole
serialization succeed. -/
def GoodPayload (p : Payload) : Prop :=
  ∀ kv ∈ p.content, (marshalTopValue kv.2).isSome = true

/-- Builder runs in which every caller-supplied `interface{}` value is
serializable: every construction sequence through the builder's
operations whose caller-provided custom data (values handed to `Alert`,
`Custom` or `ContentState`) marshals.  In particular, runs using only
the string/integer setters and string alerts qualify. -/
inductive SerializableBuild : Payload → Prop where
  | new : SerializableBuild NewPayload
  | alert (p q : Payload) (v : GoValue) : SerializableBuild p →
      (marshalGoValue v).isSome = true → Payload.Alert p v = some q → SerializableBuild q
  | custom (p : Payload) (k : String) (v : GoValue) : SerializableBuild p →
      (marshalGoValue v).isSome = true → SerializableBuild (Payload.Custom p k v)
  | mdm (p : Payload) (s : String) : SerializableBuild p →
      SerializableBuild (Payload.Mdm p s)
  | timestamp (p q : Payload) (t : Int) : SerializableBuild p →
      Payload.Timestamp p t = some q → SerializableBuild q
  | event (p q : Payload) (e : String) : SerializableBuild p →
      Payload.Event p e = some q → SerializableBuild q
  | contentState (p q : Payload) (v : GoValue) : SerializableBuild p →
      (marshalGoValue v).isSome = true → Payload.ContentState p v = some q →
      SerializableBuild q
  | attributesType (p q : Payload) (s : String) : SerializableBuild p →
      Payload.AttributesType p s = some q → SerializableBuild q
  | attributes (p q : Payload) : SerializableBuild p →
      Payload.Attributes p = some q → SerializableBuild q
  | alertTitle (p q : Payload) (t : String) : SerializableBuild p →
      Payload.AlertTitle p t = some q → SerializableBuild q
  | alertTitleLocKey (p q : Payload) (t : String) : SerializableBuild p →
      Payload.AlertTitleLocKey p t = some q → SerializableBuild q
  | alertTitleLocArgs (p q : Payload) (xs : List String) : SerializableBuild p →
      Payload.AlertTitleLocArgs p xs = some q → SerializableBuild q
  | alertSubtitle (p q : Payload) (t : String) : SerializableBuild p →
      Payload.AlertSubtitle p t = some q → SerializableBuild q
  | alertBody (p q : Payload) (t : String) : SerializableBuild p →
      Payload.AlertBody p t = some q → SerializableBuild q
  | alertLaunchImage (p q : Payload) (t : String) : SerializableBuild p →
      Payload.AlertLaunchImage p t = some q → SerializableBuild q
  | alertLocArgs (p q : Payload) (xs : List String) : SerializableBuild p →
      Payload.AlertLocArgs p xs = some q → SerializableBuild q
  | alertLocKey (p q : Payload) (t : String) : SerializableBuild p →
      Payload.AlertLocKey p t = some q → SerializableBuild q
  | alertAction (p q : Payload) (t : String) : SerializableBuild p →
      Payload.AlertAction p t = some q → SerializableBuild q
  | alertActionLocKey (p q : Payload) (t : String) : SerializableBuild p →
      Payload.AlertActionLocKey p t = some q → SerializableBuild q
  | alertSummaryArg (p q : Payload) (t : String) : SerializableBuild p →
      Payload.AlertSummaryArg p t = some q → SerializableBuild q
  | alertSummaryArgCount (p q : Payload) (n : Int) : SerializableBuild p →
      Payload.AlertSummaryArgCount p n = some q → SerializableBuild q

example : Payload.MarshalJSON NewPayload =
    some "\x7b\"aps\":\x7b\"timestamp\":0,\"event\":\"\",\"content_state\":null,\"attributes_type\":\"\",\"attributes\":null\x7d\x7d" := by
  decide

example : (Payload.Alert NewPayload (GoValue.str "hello")).bind Payload.MarshalJSON =
    some "\x7b\"aps\":\x7b\"alert\":\"hello\",\"timestamp\":0,\"event\":\"\",\"content_state\":null,\"attributes_type\":\"\",\"attributes\":null\x7d\x7d" := by
  decide

example : (Payload.Custom NewPayload "key" (GoValue.str "val")).MarshalJSON =
    some "\x7b\"aps\":\x7b\"timestamp\":0,\"event\":\"\",\"content_state\":null,\"attributes_type\":\"\",\"attributes\":null\x7d,\"key\":\"val\"\x7d" := by
  decide

example : marshalGoValue (GoValue.str "hello") = some "\"hello\"" := by decide
example : marshalGoValue (GoValue.mapVal [("map", GoValue.int 1)]) =
    some "\x7b\"map\":1\x7d" := by decide
example : marshalGoValue (GoValue.mapVal [("b", GoValue.nil), ("a", GoValue.int 2)]) =
    some "\x7b\"a\":2,\"b\":null\x7d" := by decide
example : marshalGoValue (GoValue.mapVal [("a", GoValue.unsupported)]) = none := by decide

theorem charListLt_asymm : ∀ x y : List Char, charListLt x y = true → charListLt y x = false := by
  intro x
  induction x with
  | nil =>
      intro y h
      cases y with
      | nil => simp [charListLt] at h
      | cons b bs => simp [charListLt]
  | cons a as ih =>
      intro y h
      cases y with
      | nil => simp [charListLt] at h
      | cons b bs =>
        by_cases h1 : a < b
        · have hne : b ≠ a := ne_of_gt h1
          have h2 : ¬ b < a := lt_asymm h1
          simp [charListLt, h2, hne]
        · by_cases h3 : a = b
          · subst h3
            simp only [charListLt, if_neg (lt_irrefl a), if_pos rfl] at h ⊢
            exact ih bs h
          · simp [charListLt, h1, h3] at h

theorem charListLt_connex : ∀ x y : List Char,
    charListLt x y = false → charListLt y x = false → x = y := by
  intro x
  induction x with
  | nil =>
      intro y h1 h2
      cases y with
      | nil => rfl
      | cons b bs => simp [charListLt] at h1
  | cons a as ih =>
      intro y h1 h2
      cases y with
      | nil => simp [charListLt] at h2
      | cons b bs =>
        by_cases hab : a < b
        · simp [charListLt, hab] at h1
        · by_cases hba : b < a
          · simp [charListLt, hba] at h2
          · have heq : a = b := le_antisymm (le_of_not_lt hba) (le_of_not_lt hab)
            subst heq
            simp only [charListLt, if_neg (lt_irrefl a), if_pos rfl] at h1 h2
            rw [ih bs h1 h2]

theorem charListLt_trans : ∀ x y z : List Char,
    charListLt x y = true → charListLt y z = true → charListLt x z = true := by
  intro x
  induction x with
  | nil =>
      intro y z h1 h2
      cases z with
      | nil =>
          cases y with
          | nil => simp [charListLt] at h1
          | cons b bs => simp [charListLt] at h2
      | cons c cs => simp [charListLt]
  | cons a as ih =>
      intro y z h1 h2
      cases y with
      | nil => simp [charListLt] at h1
      | cons b bs =>
        cases z with
        | nil => simp [charListLt] at h2
        | cons c cs =>
          by_cases hab : a < b
          · by_cases hbc : b < c
            · simp [charListLt, lt_trans hab hbc]
            · by_cases hbc2 : b = c
              · subst hbc2; simp [charListLt, hab]
              · simp [charListLt, hbc, hbc2] at h2
          · by_cases hab2 : a = b
            · subst hab2
              simp only [charListLt, if_neg (lt_irrefl a), if_pos rfl] at h1
              by_cases hac : a < c
              · simp [charListLt, hac]
              · by_cases hac2 : a = c
                · subst hac2
                  simp only [charListLt, if_neg (lt_irrefl a), if_pos rfl] at h2 ⊢
                  exact ih bs cs h1 h2
                · simp [charListLt, hac, hac2] at h2
            · simp [charListLt, hab, hab2] at h1

theorem strLt_asymm {a b : String} (h : strLt a b = true) : strLt b a = false :=
  charListLt_asymm a.data b.data h

theorem eq_of_strLt_both {a b : String} (h1 : strLt a b = false) (h2 : strLt b a = false) :
    a = b := by
  have hd : a.data = b.data := charListLt_connex a.data b.data h1 h2
  cases a; cases b
  exact congrArg String.mk hd

theorem strLt_trans {a b c : String} (h1 : strLt a b = true) (h2 : strLt b c = true) :
    strLt a c = true :=
  charListLt_trans a.data b.data c.data h1 h2

theorem strLt_of_lt_of_not_lt {a b c : String} (h1 : strLt a b = true)
    (h2 : strLt c b = false) : strLt a c = true := by
  cases hac : strLt a c with
  | true => rfl
  | false =>
      cases hca : strLt c a with
      | true => exact absurd (strLt_trans hca h1) (by simp [h2])
      | false =>
          have : a = c := eq_of_strLt_both hac hca
          subst this
          exact absurd h1 (by simp [h2])

theorem lookupTop_mapInsert_self (k : String) (v : TopValue) :
    ∀ m, lookupTop k (mapInsert k v m) = some v := by
  intro m
  induction m with
  | nil => simp [mapInsert, lookupTop]
  | cons kv rest ih =>
      obtain ⟨k₁, v₁⟩ := kv
      by_cases e : k = k₁
      · subst e; simp [mapInsert, lookupTop]
      · by_cases hlt : strLt k k₁ = true
        · simp [mapInsert, e, hlt, lookupTop]
        · simp [mapInsert, e, hlt, lookupTop, Ne.symm e, ih]

theorem lookupTop_mapInsert_ne {k k₁ : String} (v : TopValue) (h : k₁ ≠ k) :
    ∀ m, lookupTop k (mapInsert k₁ v m) = lookupTop k m := by
  intro m
  induction m with
  | nil => simp [mapInsert, lookupTop, h]
  | cons kv rest ih =>
      obtain ⟨k₂, v₂⟩ := kv
      by_cases e : k₁ = k₂
      · subst e; simp [mapInsert, lookupTop, h]
      · by_cases hlt : strLt k₁ k₂ = true
        · simp [mapInsert, e, hlt, lookupTop, h]
        · by_cases e2 : k₂ = k
          · subst e2; simp [mapInsert, e, hlt, lookupTop]
          · simp [mapInsert, e, hlt, lookupTop, e2, ih]

theorem mapInsert_comm {k₁ k₂ : String} (v₁ v₂ : TopValue) (h : k₁ ≠ k₂) :
    ∀ m, mapInsert k₁ v₁ (mapInsert k₂ v₂ m) = mapInsert k₂ v₂ (mapInsert k₁ v₁ m) := by
  have hlt : strLt k₁ k₂ = true ∨ strLt k₂ k₁ = true := by
    cases h1 : strLt k₁ k₂ with
    | true => exact Or.inl rfl
    | false =>
        cases h2 : strLt k₂ k₁ with
        | true => exact Or.inr rfl
        | false => exact absurd (eq_of_strLt_both h1 h2) h
  intro m
  induction m with
  | nil =>
      rcases hlt with h1 | h2
      · have h2 : strLt k₂ k₁ = false := strLt_asymm h1
        simp [mapInsert, h, Ne.symm h, h1, h2]
      · have h1 : strLt k₁ k₂ = false := strLt_asymm h2
        simp [mapInsert, h, Ne.symm h, h1, h2]
  | cons kv rest ih =>
      obtain ⟨k', v'⟩ := kv
      by_cases e1 : k₁ = k'
      · subst e1
        cases h21 : strLt k₂ k₁ with
        | true =>
            have h12 : strLt k₁ k₂ = false := strLt_asymm h21
            simp [mapInsert, h, Ne.symm h, h21, h12]
        | false =>
            simp [mapInsert, h, Ne.symm h, h21]
      · by_cases e2 : k₂ = k'
        · subst e2
          cases h12 : strLt k₁ k₂ with
          | true =>
              have h21 : strLt k₂ k₁ = false := strLt_asymm h12
              simp [mapInsert, h, Ne.symm h, h12, h21]
          | false =>
              simp [mapInsert, h, Ne.symm h, h12, e1]
        · cases hlt2 : strLt k₂ k' with
          | true =>
              cases h12 : strLt k₁ k₂ with
              | true =>
                  have hlt1 : strLt k₁ k' = true := strLt_trans h12 hlt2
                  have h21 : strLt k₂ k₁ = false := strLt_asymm h12
                  simp [mapInsert, h, Ne.symm h, h12, h21, hlt1, hlt2, e1, e2]
              | false =>
                  have h21 : strLt k₂ k₁ = true := by
                    rcases hlt with ha | hb
                    · exact absurd ha (by simp [h12])
                    · exact hb
                  cases hlt1 : strLt k₁ k' with
                  | true => simp [mapInsert, h, Ne.symm h, h12, h21, hlt1, hlt2, e1, e2]
                  | false => simp [mapInsert, h, Ne.symm h, h12, h21, hlt1, hlt2, e1, e2]
          | false =>
              cases hlt1 : strLt k₁ k' with
              | true =>
                  have h12 : strLt k₁ k₂ = true := strLt_of_lt_of_not_lt hlt1 hlt2
                  have h21 : strLt k₂ k₁ = false := strLt_asymm h12
                  simp [mapInsert, h, Ne.symm h, h12, h21, hlt1, hlt2, e1, e2]
              | false =>
                  simp [mapInsert, h, Ne.symm h, hlt1, hlt2, e1, e2, ih]

theorem updAps_eq {p : Payload} {a : aps} (f : aps → aps)
    (h : lookupTop "aps" p.content = some (TopValue.apsV a)) :
    p.updAps f = some ⟨mapInsert "aps" (TopValue.apsV (f a)) p.content⟩ := by
  unfold Payload.updAps
  rw [h]

theorem flookup_optF_ne {k k₁ v : String} {c : Prop} [Decidable c]
    {rest : List (String × String)} (h : k₁ ≠ k) :
    flookup k (optF c k₁ v ++ rest) = flookup k rest := by
  by_cases hc : c <;> simp [optF, hc, flookup, h]

theorem flookup_optF_hit {k v : String} {c : Prop} [Decidable c]
    {rest : List (String × String)} (hc : ¬ c) :
    flookup k (optF c k v ++ rest) = some v := by
  simp [optF, hc, flookup]

theorem flookup_optF_skip {k k₁ v : String} {c : Prop} [Decidable c]
    {rest : List (String × String)} (hc : c) :
    flookup k (optF c k₁ v ++ rest) = flookup k rest := by
  simp [optF, hc]

theorem flookup_optF_last_ne {k k₁ v : String} {c : Prop} [Decidable c] (h : k₁ ≠ k) :
    flookup k (optF c k₁ v) = none := by
  by_cases hc : c <;> simp [optF, hc, flookup, h]

theorem marshalEntriesTop_isSome : ∀ m : List (String × TopValue),
    (marshalEntriesTop m).isSome = true ↔
      ∀ kv ∈ m, (marshalTopValue kv.2).isSome = true := by
  intro m
  induction m with
  | nil => simp [marshalEntriesTop]
  | cons kv rest ih =>
      obtain ⟨k, v⟩ := kv
      cases hv : marshalTopValue v <;> cases hr : marshalEntriesTop rest <;>
        simp [marshalEntriesTop, hv, hr] at ih ⊢
      all_goals exact ih

theorem lookupTop_mem {k : String} {v : TopValue} :
    ∀ {m : List (String × TopValue)}, lookupTop k m = some v → (k, v) ∈ m := by
  intro m
  induction m with
  | nil => intro h; simp [lookupTop] at h
  | cons kv rest ih =>
      obtain ⟨k₁, v₁⟩ := kv
      intro h
      by_cases e : k₁ = k
      · subst e
        simp [lookupTop] at h
        subst h
        exact List.mem_cons_self _ _
      · simp [lookupTop, e] at h
        exact List.mem_cons_of_mem _ (ih h)

theorem mem_mapInsert {kv : String × TopValue} {k : String} {v : TopValue} :
    ∀ {m : List (String × TopValue)}, kv ∈ mapInsert k v m → kv = (k, v) ∨ kv ∈ m := by
  intro m
  induction m with
  | nil => intro h; simpa [mapInsert] using h
  | cons kv₁ rest ih =>
      obtain ⟨k₁, v₁⟩ := kv₁
      intro h
      by_cases e : k = k₁
      · subst e
        simp [mapInsert] at h
        rcases h with h | h
        · exact Or.inl h
        · exact Or.inr (List.mem_cons_of_mem _ h)
      · by_cases hlt : strLt k k₁ = true
        · simp [mapInsert, e, hlt] at h
          rcases h with h | h | h
          · exact Or.inl h
          · exact Or.inr (by simp [h])
          · exact Or.inr (List.mem_cons_of_mem _ h)
        · simp [mapInsert, e, hlt] at h
          rcases h with h | h
          · exact Or.inr (by simp [h])
          · rcases ih h with h | h
            · exact Or.inl h
            · exact Or.inr (List.mem_cons_of_mem _ h)

theorem marshalApsObj_isSome (a : aps) :
    (marshalApsObj a).isSome = true ↔
      ((alertFieldOf a.Alert).isSome = true ∧
       (marshalGoValue a.ContentState).isSome = true ∧
       (marshalGoValue a.Attributes).isSome = true) := by
  cases h1 : alertFieldOf a.Alert <;> cases h2 : marshalGoValue a.ContentState <;>
    cases h3 : marshalGoValue a.Attributes <;> simp [marshalApsObj, apsFields, h1, h2, h3]

theorem flookup_cons_ne {k k₁ v : String} {rest : List (String × String)} (h : k₁ ≠ k) :
    flookup k ((k₁, v) :: rest) = flookup k rest := by
  simp [flookup, h]

theorem flookup_append_none {k : String} : ∀ {l₁ : List (String × String)},
    flookup k l₁ = none → ∀ l₂, flookup k (l₁ ++ l₂) = flookup k l₂ := by
  intro l₁
  induction l₁ with
  | nil => intro _ l₂; simp
  | cons kv rest ih =>
      obtain ⟨k₁, v⟩ := kv
      intro h l₂
      by_cases e : k₁ = k
      · simp [flookup, e] at h
      · have h' : flookup k rest = none := by simpa [flookup, e] using h
        simp only [List.cons_append]
        rw [flookup_cons_ne e]
        exact ih h' l₂

theorem alertFieldOf_shape : ∀ (af : AlertField) {fs : List (String × String)},
    alertFieldOf af = some fs → fs = [] ∨ ∃ s, fs = [("alert", s)] := by
  intro af fs h
  cases af with
  | goval v =>
      cases v with
      | nil => exact Or.inl (by simpa [alertFieldOf] using h.symm)
      | str s => exact Or.inr ⟨quoteJson s, by simpa [alertFieldOf, marshalGoValue] using h.symm⟩
      | int n => exact Or.inr ⟨toString n, by simpa [alertFieldOf, marshalGoValue] using h.symm⟩
      | strList xs =>
          exact Or.inr ⟨renderStrList xs, by simpa [alertFieldOf, marshalGoValue] using h.symm⟩
      | mapVal m =>
          cases hm : marshalGoEntries m with
          | none => simp [alertFieldOf, marshalGoValue, hm] at h
          | some es =>
              exact Or.inr ⟨renderPairs (sortPairs es),
                by simpa [alertFieldOf, marshalGoValue, hm] using h.symm⟩
      | unsupported => simp [alertFieldOf, marshalGoValue] at h
  | structured al => exact Or.inr ⟨marshalAlert al, by simpa [alertFieldOf] using h.symm⟩

theorem flookup_alertFieldOf_none {af : AlertField} {fs : List (String × String)} {k : String}
    (hk : "alert" ≠ k) (h : alertFieldOf af = some fs) : flookup k fs = none := by
  rcases alertFieldOf_shape af h with h1 | ⟨s, h1⟩ <;> subst h1 <;> simp [flookup, hk]


theorem attrsFieldOf_shape : ∀ (ov : Option GoValue) {fs : List (String × String)},
    attrsFieldOf ov = some fs → fs = [] ∨ ∃ s, fs = [("attributes", s)] := by
  intro ov fs h
  cases ov with
  | none => exact Or.inl (by simpa [attrsFieldOf] using h.symm)
  | some v =>
      cases hm : marshalGoValue v with
      | none => simp [attrsFieldOf, hm] at h
      | some s => exact Or.inr ⟨s, by simpa [attrsFieldOf, hm] using h.symm⟩

theorem flookup_attrsFieldOf_none {ov : Option GoValue} {fs : List (String × String)}
    {k : String} (hk : "attributes" ≠ k) (h : attrsFieldOf ov = some fs) :
    flookup k fs = none := by
  rcases attrsFieldOf_shape ov h with h1 | ⟨s, h1⟩ <;> subst h1 <;> simp [flookup, hk]

/-- C1: the claim says a fresh builder serializes to
`aps` holding exactly timestamp 0, event "", content-state null and
attributes-type "" with hyphenated key spelling.  The code disagrees:
its struct tags spell `content_state` and `attributes_type` with
underscores, and the `attributes` tag has no omitempty, so a fresh
payload also carries `"attributes":null`.  This theorem evaluates the
code at the failing input (a fresh `NewPayload`), exhibiting the bytes
actually produced and that the claimed bytes are not produced. -/
theorem c1_fresh_payload_output :
    Payload.MarshalJSON NewPayload =
      some "\x7b\"aps\":\x7b\"timestamp\":0,\"event\":\"\",\"content_state\":null,\"attributes_type\":\"\",\"attributes\":null\x7d\x7d" ∧
    Payload.MarshalJSON NewPayload ≠
      some "\x7b\"aps\":\x7b\"timestamp\":0,\"event\":\"\",\"content-state\":null,\"attributes-type\":\"\"\x7d\x7d" := by
  constructor
  · decide
  · decide

/-- C4 (counterexample): the claim says every mutation is total even
after `Custom("aps", v)` replaced the structured block.  It is not: the
`p.content["aps"].(*aps)` type assertion panics (modelled as `none`)
when the entry holds the caller's string instead of a `*aps`. -/
theorem c4_totality_counterexample :
    Payload.Timestamp (Payload.Custom NewPayload "aps" (GoValue.str "x")) 5 = none := by
  rfl

/-- C4 (amended): `Custom` and `Mdm` are total by construction (they
return a `Payload`, never failing); every aps-block and alert mutation
succeeds in every state in which the reserved "aps" entry still holds
the structured aps block - it panics exactly when a prior
`Custom("aps", v)` replaced that block. -/
theorem c4_totality_amended (p : Payload) (a : aps)
    (h : lookupTop "aps" p.content = some (TopValue.apsV a))
    (v cs : GoValue) (s e t ak : String) (xs : List String) (ts n : Int) :
    (Payload.Alert p v).isSome = true ∧
    (Payload.Timestamp p ts).isSome = true ∧
    (Payload.Event p e).isSome = true ∧
    (Payload.ContentState p cs).isSome = true ∧
    (Payload.AttributesType p s).isSome = true ∧
    (Payload.Attributes p).isSome = true ∧
    (Payload.AlertTitle p t).isSome = true ∧
    (Payload.AlertTitleLocKey p ak).isSome = true ∧
    (Payload.AlertTitleLocArgs p xs).isSome = true ∧
    (Payload.AlertSubtitle p t).isSome = true ∧
    (Payload.AlertBody p t).isSome = true ∧
    (Payload.AlertLaunchImage p t).isSome = true ∧
    (Payload.AlertLocArgs p xs).isSome = true ∧
    (Payload.AlertLocKey p ak).isSome = true ∧
    (Payload.AlertAction p ak).isSome = true ∧
    (Payload.AlertActionLocKey p ak).isSome = true ∧
    (Payload.AlertSummaryArg p ak).isSome = true ∧
    (Payload.AlertSummaryArgCount p n).isSome = true := by
  have key : ∀ f : aps → aps, (p.updAps f).isSome = true := by
    intro f
    rw [updAps_eq f h]
    rfl
  exact ⟨key _, key _, key _, key _, key _, key _, key _, key _, key _, key _, key _,
    key _, key _, key _, key _, key _, key _, key _⟩

/-- Witness for C4 (amended) at the fresh payload. -/
theorem c4_totality_witness :
    (Payload.Alert NewPayload (GoValue.str "hello")).isSome = true ∧
    (Payload.Timestamp NewPayload 7).isSome = true ∧
    (Payload.Event NewPayload "update").isSome = true ∧
    (Payload.ContentState NewPayload GoValue.nil).isSome = true ∧
    (Payload.AttributesType NewPayload "s").isSome = true ∧
    (Payload.Attributes NewPayload).isSome = true ∧
    (Payload.AlertTitle NewPayload "t").isSome = true ∧
    (Payload.AlertTitleLocKey NewPayload "k").isSome = true ∧
    (Payload.AlertTitleLocArgs NewPayload []).isSome = true ∧
    (Payload.AlertSubtitle NewPayload "t").isSome = true ∧
    (Payload.AlertBody NewPayload "t").isSome = true ∧
    (Payload.AlertLaunchImage NewPayload "t").isSome = true ∧
    (Payload.AlertLocArgs NewPayload []).isSome = true ∧
    (Payload.AlertLocKey NewPayload "k").isSome = true ∧
    (Payload.AlertAction NewPayload "k").isSome = true ∧
    (Payload.AlertActionLocKey NewPayload "k").isSome = true ∧
    (Payload.AlertSummaryArg NewPayload "k").isSome = true ∧
    (Payload.AlertSummaryArgCount NewPayload 3).isSome = true :=
  c4_totality_amended NewPayload {} rfl (GoValue.str "hello") GoValue.nil "s" "update" "t" "k"
    [] 7 3

/-- C7: `Mdm x` stores the string under the key "mdm" exactly as
`Custom "mdm" x` does - the documents are equal, hence the serialized
bytes are too. -/
theorem c7_mdm_equiv_custom (p : Payload) (x : String) :
    Payload.Mdm p x = Payload.Custom p "mdm" (GoValue.str x) ∧
    Payload.MarshalJSON (Payload.Mdm p x) =
      Payload.MarshalJSON (Payload.Custom p "mdm" (GoValue.str x)) :=
  ⟨rfl, rfl⟩

/-- C8: `MarshalJSON` reads the document without modifying it (it is a
pure function of `p.content` in this embedding, as the Go method body
`json.Marshal(p.content)` performs no writes), so serializing the same
state twice yields identical bytes. -/
theorem c8_serialize_repeatable (p : Payload) (s₁ s₂ : String)
    (h₁ : Payload.MarshalJSON p = some s₁) (h₂ : Payload.MarshalJSON p = some s₂) :
    s₁ = s₂ :=
  Option.some.inj (h₁.symm.trans h₂)

/-- Witness for C8 at the fresh payload. -/
theorem c8_serialize_repeatable_witness :
    "\x7b\"aps\":\x7b\"timestamp\":0,\"event\":\"\",\"content_state\":null,\"attributes_type\":\"\",\"attributes\":null\x7d\x7d" =
      "\x7b\"aps\":\x7b\"timestamp\":0,\"event\":\"\",\"content_state\":null,\"attributes_type\":\"\",\"attributes\":null\x7d\x7d" :=
  c8_serialize_repeatable NewPayload _ _ (by decide) (by decide)

/-- C10: for distinct keys, the two insertion orders of `Custom` yield
the same document, and hence byte-identical `MarshalJSON` output (the
encoding is a function of the final map contents, emitted in sorted key
order). -/
theorem c10_custom_order_comm (p : Payload) (k₁ k₂ : String) (v₁ v₂ : GoValue)
    (h : k₁ ≠ k₂) :
    Payload.Custom (Payload.Custom p k₁ v₁) k₂ v₂ =
      Payload.Custom (Payload.Custom p k₂ v₂) k₁ v₁ ∧
    Payload.MarshalJSON (Payload.Custom (Payload.Custom p k₁ v₁) k₂ v₂) =
      Payload.MarshalJSON (Payload.Custom (Payload.Custom p k₂ v₂) k₁ v₁) := by
  have hd : Payload.Custom (Payload.Custom p k₁ v₁) k₂ v₂ =
      Payload.Custom (Payload.Custom p k₂ v₂) k₁ v₁ := by
    unfold Payload.Custom
    exact congrArg Payload.mk
      (mapInsert_comm (TopValue.goval v₂) (TopValue.goval v₁) (Ne.symm h) p.content)
  exact ⟨hd, congrArg Payload.MarshalJSON hd⟩

/-- Witness for C10 with keys "a" and "b". -/
theorem c10_custom_order_comm_witness :
    Payload.Custom (Payload.Custom NewPayload "a" (GoValue.str "x")) "b" (GoValue.str "y") =
      Payload.Custom (Payload.Custom NewPayload "b" (GoValue.str "y")) "a" (GoValue.str "x") ∧
    Payload.MarshalJSON
        (Payload.Custom (Payload.Custom NewPayload "a" (GoValue.str "x")) "b" (GoValue.str "y")) =
      Payload.MarshalJSON
        (Payload.Custom (Payload.Custom NewPayload "b" (GoValue.str "y")) "a" (GoValue.str "x")) :=
  c10_custom_order_comm NewPayload "a" "b" (GoValue.str "x") (GoValue.str "y") (by decide)

/-- C9 (counterexample): setting an alert sub-field to its zero value is
not "exactly as if the operation had not been called": `AlertTitle ""`
on a fresh payload forces a structured alert block into existence, so
the output gains `"alert":\x7b\x7d` and differs from the fresh payload's
output. -/
theorem c9_zero_title_counterexample :
    (Payload.AlertTitle NewPayload "").bind Payload.MarshalJSON ≠
      Payload.MarshalJSON NewPayload := by
  decide

theorem flookup_optF_last_skip {k k₁ v : String} {c : Prop} [Decidable c] (hc : c) :
    flookup k (optF c k₁ v) = none := by
  simp [optF, hc, flookup]

/-- C2: once the alert field holds a structured block `al`, every one of
the twelve alert-sub-field mutations reuses that same block rather than
replacing it - each yields `al` with just its own field updated and all
other fields preserved; in particular `AlertTitle t` then `AlertBody b`
land on the one original block, so the final alert is `al` with both
title and body set, and the rendered alert object carries both keys. -/
theorem c2_alert_block_reused (p : Payload) (a : aps) (al : alert) (t b : String)
    (h : lookupTop "aps" p.content = some (TopValue.apsV a))
    (hal : a.Alert = AlertField.structured al)
    (ht : t ≠ "") (hb : b ≠ "")
    (u : String) (xs : List String) (n : Int) :
    Payload.AlertTitle p u = some (withAlert p a { al with Title := u }) ∧
    Payload.AlertTitleLocKey p u = some (withAlert p a { al with TitleLocKey := u }) ∧
    Payload.AlertTitleLocArgs p xs = some (withAlert p a { al with TitleLocArgs := xs }) ∧
    Payload.AlertSubtitle p u = some (withAlert p a { al with Subtitle := u }) ∧
    Payload.AlertBody p u = some (withAlert p a { al with Body := u }) ∧
    Payload.AlertLaunchImage p u = some (withAlert p a { al with LaunchImage := u }) ∧
    Payload.AlertLocArgs p xs = some (withAlert p a { al with LocArgs := xs }) ∧
    Payload.AlertLocKey p u = some (withAlert p a { al with LocKey := u }) ∧
    Payload.AlertAction p u = some (withAlert p a { al with Action := u }) ∧
    Payload.AlertActionLocKey p u = some (withAlert p a { al with ActionLocKey := u }) ∧
    Payload.AlertSummaryArg p u = some (withAlert p a { al with SummaryArg := u }) ∧
    Payload.AlertSummaryArgCount p n = some (withAlert p a { al with SummaryArgCount := n }) ∧
    ((Payload.AlertTitle p t).bind (fun q => Payload.AlertBody q b)).bind Payload.getAlert =
      some (AlertField.structured { al with Title := t, Body := b }) ∧
    flookup "title" (alertFields { al with Title := t, Body := b }) = some (quoteJson t) ∧
    flookup "body" (alertFields { al with Title := t, Body := b }) = some (quoteJson b) := by
  have hblk : a.alertBlock = al := by simp [aps.alertBlock, hal]
  have h1 : Payload.AlertTitle p t =
      some ⟨mapInsert "aps"
        (TopValue.apsV { a with Alert := AlertField.structured { al with Title := t } })
        p.content⟩ := by
    unfold Payload.AlertTitle
    rw [updAps_eq _ h, hblk]
  have h2 := lookupTop_mapInsert_self "aps"
    (TopValue.apsV { a with Alert := AlertField.structured { al with Title := t } }) p.content
  have h3 : Payload.AlertBody
      (⟨mapInsert "aps"
        (TopValue.apsV { a with Alert := AlertField.structured { al with Title := t } })
        p.content⟩ : Payload) b =
      some ⟨mapInsert "aps"
        (TopValue.apsV { a with Alert := AlertField.structured { al with Title := t, Body := b } })
        (mapInsert "aps"
          (TopValue.apsV { a with Alert := AlertField.structured { al with Title := t } })
          p.content)⟩ := by
    unfold Payload.AlertBody
    rw [updAps_eq _ h2]
    simp [aps.alertBlock]
  refine ⟨?_, ?_, ?_, ?_, ?_, ?_, ?_, ?_, ?_, ?_, ?_, ?_, ?_, ?_, ?_⟩
  · simp only [Payload.AlertTitle, withAlert]
    rw [updAps_eq _ h, hblk]
  · simp only [Payload.AlertTitleLocKey, withAlert]
    rw [updAps_eq _ h, hblk]
  · simp only [Payload.AlertTitleLocArgs, withAlert]
    rw [updAps_eq _ h, hblk]
  · simp only [Payload.AlertSubtitle, withAlert]
    rw [updAps_eq _ h, hblk]
  · simp only [Payload.AlertBody, withAlert]
    rw [updAps_eq _ h, hblk]
  · simp only [Payload.AlertLaunchImage, withAlert]
    rw [updAps_eq _ h, hblk]
  · simp only [Payload.AlertLocArgs, withAlert]
    rw [updAps_eq _ h, hblk]
  · simp only [Payload.AlertLocKey, withAlert]
    rw [updAps_eq _ h, hblk]
  · simp only [Payload.AlertAction, withAlert]
    rw [updAps_eq _ h, hblk]
  · simp only [Payload.AlertActionLocKey, withAlert]
    rw [updAps_eq _ h, hblk]
  · simp only [Payload.AlertSummaryArg, withAlert]
    rw [updAps_eq _ h, hblk]
  · simp only [Payload.AlertSummaryArgCount, withAlert]
    rw [updAps_eq _ h, hblk]
  · rw [h1]
    simp [h3, Payload.getAlert, Payload.apsLookup, lookupTop_mapInsert_self]
  · simp [alertFields, List.append_assoc, flookup_optF_ne, flookup_optF_hit, ht]
  · simp [alertFields, List.append_assoc, flookup_optF_ne, flookup_optF_hit, hb]

/-- Witness for C2 on a payload whose alert block already carries a
localization key: every setter keeps the key while updating its own
field, and title and body join it in the chained run. -/
theorem c2_alert_block_reused_witness :
    Payload.AlertTitle
        (⟨[("aps", TopValue.apsV { Alert := AlertField.structured { LocKey := "lk" } })]⟩ :
          Payload) "u" =
      some (withAlert
        (⟨[("aps", TopValue.apsV { Alert := AlertField.structured { LocKey := "lk" } })]⟩ :
          Payload)
        { Alert := AlertField.structured { LocKey := "lk" } }
        { ({ LocKey := "lk" } : alert) with Title := "u" }) ∧
    Payload.AlertTitleLocKey
        (⟨[("aps", TopValue.apsV { Alert := AlertField.structured { LocKey := "lk" } })]⟩ :
          Payload) "u" =
      some (withAlert
        (⟨[("aps", TopValue.apsV { Alert := AlertField.structured { LocKey := "lk" } })]⟩ :
          Payload)
        { Alert := AlertField.structured { LocKey := "lk" } }
        { ({ LocKey := "lk" } : alert) with TitleLocKey := "u" }) ∧
    Payload.AlertTitleLocArgs
        (⟨[("aps", TopValue.apsV { Alert := AlertField.structured { LocKey := "lk" } })]⟩ :
          Payload) ["x"] =
      some (withAlert
        (⟨[("aps", TopValue.apsV { Alert := AlertField.structured { LocKey := "lk" } })]⟩ :
          Payload)
        { Alert := AlertField.structured { LocKey := "lk" } }
        { ({ LocKey := "lk" } : alert) with TitleLocArgs := ["x"] }) ∧
    Payload.AlertSubtitle
        (⟨[("aps", TopValue.apsV { Alert := AlertField.structured { LocKey := "lk" } })]⟩ :
          Payload) "u" =
      some (withAlert
        (⟨[("aps", TopValue.apsV { Alert := AlertField.structured { LocKey := "lk" } })]⟩ :
          Payload)
        { Alert := AlertField.structured { LocKey := "lk" } }
        { ({ LocKey := "lk" } : alert) with Subtitle := "u" }) ∧
    Payload.AlertBody
        (⟨[("aps", TopValue.apsV { Alert := AlertField.structured { LocKey := "lk" } })]⟩ :
          Payload) "u" =
      some (withAlert
        (⟨[("aps", TopValue.apsV { Alert := AlertField.structured { LocKey := "lk" } })]⟩ :
          Payload)
        { Alert := AlertField.structured { LocKey := "lk" } }
        { ({ LocKey := "lk" } : alert) with Body := "u" }) ∧
    Payload.AlertLaunchImage
        (⟨[("aps", TopValue.apsV { Alert := AlertField.structured { LocKey := "lk" } })]⟩ :
          Payload) "u" =
      some (withAlert
        (⟨[("aps", TopValue.apsV { Alert := AlertField.structured { LocKey := "lk" } })]⟩ :
          Payload)
        { Alert := AlertField.structured { LocKey := "lk" } }
        { ({ LocKey := "lk" } : alert) with LaunchImage := "u" }) ∧
    Payload.AlertLocArgs
        (⟨[("aps", TopValue.apsV { Alert := AlertField.structured { LocKey := "lk" } })]⟩ :
          Payload) ["x"] =
      some (withAlert
        (⟨[("aps", TopValue.apsV { Alert := AlertField.structured { LocKey := "lk" } })]⟩ :
          Payload)
        { Alert := AlertField.structured { LocKey := "lk" } }
        { ({ LocKey := "lk" } : alert) with LocArgs := ["x"] }) ∧
    Payload.AlertLocKey
        (⟨[("aps", TopValue.apsV { Alert := AlertField.structured { LocKey := "lk" } })]⟩ :
          Payload) "u" =
      some (withAlert
        (⟨[("aps", TopValue.apsV { Alert := AlertField.structured { LocKey := "lk" } })]⟩ :
          Payload)
        { Alert := AlertField.structured { LocKey := "lk" } }
        { ({ LocKey := "lk" } : alert) with LocKey := "u" }) ∧
    Payload.AlertAction
        (⟨[("aps", TopValue.apsV { Alert := AlertField.structured { LocKey := "lk" } })]⟩ :
          Payload) "u" =
      some (withAlert
        (⟨[("aps", TopValue.apsV { Alert := AlertField.structured { LocKey := "lk" } })]⟩ :
          Payload)
        { Alert := AlertField.structured { LocKey := "lk" } }
        { ({ LocKey := "lk" } : alert) with Action := "u" }) ∧
    Payload.AlertActionLocKey
        (⟨[("aps", TopValue.apsV { Alert := AlertField.structured { LocKey := "lk" } })]⟩ :
          Payload) "u" =
      some (withAlert
        (⟨[("aps", TopValue.apsV { Alert := AlertField.structured { LocKey := "lk" } })]⟩ :
          Payload)
        { Alert := AlertField.structured { LocKey := "lk" } }
        { ({ LocKey := "lk" } : alert) with ActionLocKey := "u" }) ∧
    Payload.AlertSummaryArg
        (⟨[("aps", TopValue.apsV { Alert := AlertField.structured { LocKey := "lk" } })]⟩ :
          Payload) "u" =
      some (withAlert
        (⟨[("aps", TopValue.apsV { Alert := AlertField.structured { LocKey := "lk" } })]⟩ :
          Payload)
        { Alert := AlertField.structured { LocKey := "lk" } }
        { ({ LocKey := "lk" } : alert) with SummaryArg := "u" }) ∧
    Payload.AlertSummaryArgCount
        (⟨[("aps", TopValue.apsV { Alert := AlertField.structured { LocKey := "lk" } })]⟩ :
          Payload) 2 =
      some (withAlert
        (⟨[("aps", TopValue.apsV { Alert := AlertField.structured { LocKey := "lk" } })]⟩ :
          Payload)
        { Alert := AlertField.structured { LocKey := "lk" } }
        { ({ LocKey := "lk" } : alert) with SummaryArgCount := 2 }) ∧
    ((Payload.AlertTitle
        (⟨[("aps", TopValue.apsV { Alert := AlertField.structured { LocKey := "lk" } })]⟩ :
          Payload) "a").bind
      (fun q => Payload.AlertBody q "b")).bind Payload.getAlert =
      some (AlertField.structured { ({ LocKey := "lk" } : alert) with Title := "a", Body := "b" }) ∧
    flookup "title" (alertFields { ({ LocKey := "lk" } : alert) with Title := "a", Body := "b" }) =
      some (quoteJson "a") ∧
    flookup "body" (alertFields { ({ LocKey := "lk" } : alert) with Title := "a", Body := "b" }) =
      some (quoteJson "b") :=
  c2_alert_block_reused
    ⟨[("aps", TopValue.apsV { Alert := AlertField.structured { LocKey := "lk" } })]⟩
    { Alert := AlertField.structured { LocKey := "lk" } } { LocKey := "lk" } "a" "b"
    rfl rfl (by decide) (by decide) "u" ["x"] 2

/-- C6: when the alert field holds a plain string, every alert sub-field
setter discards it and installs a fresh block carrying only the field it
sets (all other fields at their zero defaults, no trace of the string). -/
theorem c6_string_alert_discarded (p : Payload) (a : aps) (s : String)
    (h : lookupTop "aps" p.content = some (TopValue.apsV a))
    (hs : a.Alert = AlertField.goval (GoValue.str s))
    (t u : String) (xs : List String) (n : Int) :
    Payload.AlertTitle p t = some (withAlert p a { Title := t }) ∧
    Payload.AlertTitleLocKey p u = some (withAlert p a { TitleLocKey := u }) ∧
    Payload.AlertTitleLocArgs p xs = some (withAlert p a { TitleLocArgs := xs }) ∧
    Payload.AlertSubtitle p t = some (withAlert p a { Subtitle := t }) ∧
    Payload.AlertBody p t = some (withAlert p a { Body := t }) ∧
    Payload.AlertLaunchImage p t = some (withAlert p a { LaunchImage := t }) ∧
    Payload.AlertLocArgs p xs = some (withAlert p a { LocArgs := xs }) ∧
    Payload.AlertLocKey p u = some (withAlert p a { LocKey := u }) ∧
    Payload.AlertAction p t = some (withAlert p a { Action := t }) ∧
    Payload.AlertActionLocKey p u = some (withAlert p a { ActionLocKey := u }) ∧
    Payload.AlertSummaryArg p u = some (withAlert p a { SummaryArg := u }) ∧
    Payload.AlertSummaryArgCount p n = some (withAlert p a { SummaryArgCount := n }) := by
  have hblk : a.alertBlock = {} := by simp [aps.alertBlock, hs]
  refine ⟨?_, ?_, ?_, ?_, ?_, ?_, ?_, ?_, ?_, ?_, ?_, ?_⟩ <;>
    · simp only [Payload.AlertTitle, Payload.AlertTitleLocKey, Payload.AlertTitleLocArgs,
        Payload.AlertSubtitle, Payload.AlertBody, Payload.AlertLaunchImage,
        Payload.AlertLocArgs, Payload.AlertLocKey, Payload.AlertAction,
        Payload.AlertActionLocKey, Payload.AlertSummaryArg, Payload.AlertSummaryArgCount,
        withAlert]
      rw [updAps_eq _ h, hblk]

/-- Witness for C6 on a payload whose alert is the string "hello". -/
theorem c6_string_alert_discarded_witness :
    Payload.AlertTitle
        (⟨[("aps", TopValue.apsV { Alert := AlertField.goval (GoValue.str "hello") })]⟩ :
          Payload) "t" =
      some (withAlert
        (⟨[("aps", TopValue.apsV { Alert := AlertField.goval (GoValue.str "hello") })]⟩ :
          Payload)
        { Alert := AlertField.goval (GoValue.str "hello") } { Title := "t" }) ∧
    Payload.AlertTitleLocKey
        (⟨[("aps", TopValue.apsV { Alert := AlertField.goval (GoValue.str "hello") })]⟩ :
          Payload) "u" =
      some (withAlert
        (⟨[("aps", TopValue.apsV { Alert := AlertField.goval (GoValue.str "hello") })]⟩ :
          Payload)
        { Alert := AlertField.goval (GoValue.str "hello") } { TitleLocKey := "u" }) ∧
    Payload.AlertTitleLocArgs
        (⟨[("aps", TopValue.apsV { Alert := AlertField.goval (GoValue.str "hello") })]⟩ :
          Payload) ["x"] =
      some (withAlert
        (⟨[("aps", TopValue.apsV { Alert := AlertField.goval (GoValue.str "hello") })]⟩ :
          Payload)
        { Alert := AlertField.goval (GoValue.str "hello") } { TitleLocArgs := ["x"] }) ∧
    Payload.AlertSubtitle
        (⟨[("aps", TopValue.apsV { Alert := AlertField.goval (GoValue.str "hello") })]⟩ :
          Payload) "t" =
      some (withAlert
        (⟨[("aps", TopValue.apsV { Alert := AlertField.goval (GoValue.str "hello") })]⟩ :
          Payload)
        { Alert := AlertField.goval (GoValue.str "hello") } { Subtitle := "t" }) ∧
    Payload.AlertBody
        (⟨[("aps", TopValue.apsV { Alert := AlertField.goval (GoValue.str "hello") })]⟩ :
          Payload) "t" =
      some (withAlert
        (⟨[("aps", TopValue.apsV { Alert := AlertField.goval (GoValue.str "hello") })]⟩ :
          Payload)
        { Alert := AlertField.goval (GoValue.str "hello") } { Body := "t" }) ∧
    Payload.AlertLaunchImage
        (⟨[("aps", TopValue.apsV { Alert := AlertField.goval (GoValue.str "hello") })]⟩ :
          Payload) "t" =
      some (withAlert
        (⟨[("aps", TopValue.apsV { Alert := AlertField.goval (GoValue.str "hello") })]⟩ :
          Payload)
        { Alert := AlertField.goval (GoValue.str "hello") } { LaunchImage := "t" }) ∧
    Payload.AlertLocArgs
        (⟨[("aps", TopValue.apsV { Alert := AlertField.goval (GoValue.str "hello") })]⟩ :
          Payload) ["x"] =
      some (withAlert
        (⟨[("aps", TopValue.apsV { Alert := AlertField.goval (GoValue.str "hello") })]⟩ :
          Payload)
        { Alert := AlertField.goval (GoValue.str "hello") } { LocArgs := ["x"] }) ∧
    Payload.AlertLocKey
        (⟨[("aps", TopValue.apsV { Alert := AlertField.goval (GoValue.str "hello") })]⟩ :
          Payload) "u" =
      some (withAlert
        (⟨[("aps", TopValue.apsV { Alert := AlertField.goval (GoValue.str "hello") })]⟩ :
          Payload)
        { Alert := AlertField.goval (GoValue.str "hello") } { LocKey := "u" }) ∧
    Payload.AlertAction
        (⟨[("aps", TopValue.apsV { Alert := AlertField.goval (GoValue.str "hello") })]⟩ :
          Payload) "t" =
      some (withAlert
        (⟨[("aps", TopValue.apsV { Alert := AlertField.goval (GoValue.str "hello") })]⟩ :
          Payload)
        { Alert := AlertField.goval (GoValue.str "hello") } { Action := "t" }) ∧
    Payload.AlertActionLocKey
        (⟨[("aps", TopValue.apsV { Alert := AlertField.goval (GoValue.str "hello") })]⟩ :
          Payload) "u" =
      some (withAlert
        (⟨[("aps", TopValue.apsV { Alert := AlertField.goval (GoValue.str "hello") })]⟩ :
          Payload)
        { Alert := AlertField.goval (GoValue.str "hello") } { ActionLocKey := "u" }) ∧
    Payload.AlertSummaryArg
        (⟨[("aps", TopValue.apsV { Alert := AlertField.goval (GoValue.str "hello") })]⟩ :
          Payload) "u" =
      some (withAlert
        (⟨[("aps", TopValue.apsV { Alert := AlertField.goval (GoValue.str "hello") })]⟩ :
          Payload)
        { Alert := AlertField.goval (GoValue.str "hello") } { SummaryArg := "u" }) ∧
    Payload.AlertSummaryArgCount
        (⟨[("aps", TopValue.apsV { Alert := AlertField.goval (GoValue.str "hello") })]⟩ :
          Payload) 2 =
      some (withAlert
        (⟨[("aps", TopValue.apsV { Alert := AlertField.goval (GoValue.str "hello") })]⟩ :
          Payload)
        { Alert := AlertField.goval (GoValue.str "hello") } { SummaryArgCount := 2 }) :=
  c6_string_alert_discarded
    ⟨[("aps", TopValue.apsV { Alert := AlertField.goval (GoValue.str "hello") })]⟩
    { Alert := AlertField.goval (GoValue.str "hello") } "hello" rfl rfl "t" "u" ["x"] 2

/-- C9 (amended): setting an alert sub-field to its zero value does keep
the corresponding key out of the rendered alert object (`omitempty`),
but the operation is not a no-op: it still forces a structured alert
block to exist (resetting any previous value of that field and
discarding a string alert). -/
theorem c9_zero_fields_amended (p : Payload) (a : aps)
    (h : lookupTop "aps" p.content = some (TopValue.apsV a)) :
    (Payload.AlertTitle p "").bind Payload.getAlert =
      some (AlertField.structured { a.alertBlock with Title := "" }) ∧
    flookup "title" (alertFields { a.alertBlock with Title := "" }) = none ∧
    (Payload.AlertSummaryArgCount p 0).bind Payload.getAlert =
      some (AlertField.structured { a.alertBlock with SummaryArgCount := 0 }) ∧
    flookup "summary-arg-count" (alertFields { a.alertBlock with SummaryArgCount := 0 }) = none ∧
    (Payload.AlertLocArgs p []).bind Payload.getAlert =
      some (AlertField.structured { a.alertBlock with LocArgs := [] }) ∧
    flookup "loc-args" (alertFields { a.alertBlock with LocArgs := [] }) = none := by
  refine ⟨?_, ?_, ?_, ?_, ?_, ?_⟩
  · simp only [Payload.AlertTitle]
    rw [updAps_eq _ h]
    simp [Payload.getAlert, Payload.apsLookup, lookupTop_mapInsert_self]
  · simp [alertFields, List.append_assoc, flookup_optF_ne, flookup_optF_skip,
      flookup_optF_last_ne]
  · simp only [Payload.AlertSummaryArgCount]
    rw [updAps_eq _ h]
    simp [Payload.getAlert, Payload.apsLookup, lookupTop_mapInsert_self]
  · simp [alertFields, List.append_assoc, flookup_optF_ne, flookup_optF_last_skip]
  · simp only [Payload.AlertLocArgs]
    rw [updAps_eq _ h]
    simp [Payload.getAlert, Payload.apsLookup, lookupTop_mapInsert_self]
  · simp [alertFields, List.append_assoc, flookup_optF_ne, flookup_optF_skip,
      flookup_optF_last_ne]

/-- Witness for C9 (amended) at the fresh payload. -/
theorem c9_zero_fields_witness :
    (Payload.AlertTitle NewPayload "").bind Payload.getAlert =
      some (AlertField.structured { ({} : aps).alertBlock with Title := "" }) ∧
    flookup "title" (alertFields { ({} : aps).alertBlock with Title := "" }) = none ∧
    (Payload.AlertSummaryArgCount NewPayload 0).bind Payload.getAlert =
      some (AlertField.structured { ({} : aps).alertBlock with SummaryArgCount := 0 }) ∧
    flookup "summary-arg-count"
      (alertFields { ({} : aps).alertBlock with SummaryArgCount := 0 }) = none ∧
    (Payload.AlertLocArgs NewPayload []).bind Payload.getAlert =
      some (AlertField.structured { ({} : aps).alertBlock with LocArgs := [] }) ∧
    flookup "loc-args" (alertFields { ({} : aps).alertBlock with LocArgs := [] }) = none :=
  c9_zero_fields_amended NewPayload {} rfl

/-- C3 (spec-modelled): on the spec's aps block, `setDismissalDate` is a
direct field assignment; when the field is zero (never set, or set to 0)
the rendered fields carry no "dismissal-date" key, and after
`setDismissalDate(1700000000)` they carry `"dismissal-date":1700000000`. -/
theorem c3_dismissal_date (a : apsSpec) :
    (∀ fs, a.DismissalDate = 0 → apsSpecFields a = some fs →
        flookup "dismissal-date" fs = none) ∧
    (∀ fs, apsSpecFields (apsSpec.SetDismissalDate a 1700000000) = some fs →
        flookup "dismissal-date" fs = some "1700000000") ∧
    (∀ t, apsSpec.SetDismissalDate a t = { a with DismissalDate := t }) := by
  refine ⟨?_, ?_, fun t => rfl⟩
  · intro fs h0 hf
    cases hA : alertFieldOf a.Alert with
    | none => simp [apsSpecFields, hA] at hf
    | some ap =>
        cases hC : marshalGoValue a.ContentState with
        | none => simp [apsSpecFields, hA, hC] at hf
        | some cs =>
            cases hT : attrsFieldOf a.Attributes with
            | none => simp [apsSpecFields, hA, hC, hT] at hf
            | some ats =>
                simp only [apsSpecFields, hA, hC, hT] at hf
                injection hf with hf
                rw [← hf]
                simp only [List.append_assoc, List.cons_append, List.nil_append]
                rw [flookup_append_none (flookup_alertFieldOf_none (by decide) hA)]
                rw [flookup_cons_ne (by decide), flookup_cons_ne (by decide),
                  flookup_cons_ne (by decide), flookup_cons_ne (by decide)]
                rw [flookup_append_none (flookup_attrsFieldOf_none (by decide) hT)]
                simp [optF, h0, flookup]
  · intro fs hf
    cases hA : alertFieldOf a.Alert with
    | none => simp [apsSpecFields, apsSpec.SetDismissalDate, hA] at hf
    | some ap =>
        cases hC : marshalGoValue a.ContentState with
        | none => simp [apsSpecFields, apsSpec.SetDismissalDate, hA, hC] at hf
        | some cs =>
            cases hT : attrsFieldOf a.Attributes with
            | none => simp [apsSpecFields, apsSpec.SetDismissalDate, hA, hC, hT] at hf
            | some ats =>
                simp only [apsSpecFields, apsSpec.SetDismissalDate, hA, hC, hT] at hf
                injection hf with hf
                rw [← hf]
                simp only [List.append_assoc, List.cons_append, List.nil_append]
                rw [flookup_append_none (flookup_alertFieldOf_none (by decide) hA)]
                rw [flookup_cons_ne (by decide), flookup_cons_ne (by decide),
                  flookup_cons_ne (by decide), flookup_cons_ne (by decide)]
                rw [flookup_append_none (flookup_attrsFieldOf_none (by decide) hT)]
                simp [optF, flookup]
                decide

/-- Witness for C3 on the zero-valued spec block. -/
theorem c3_dismissal_date_witness :
    flookup "dismissal-date"
      [("timestamp", "0"), ("event", "\"\""), ("content-state", "null"),
        ("attributes-type", "\"\"")] = none ∧
    flookup "dismissal-date"
      [("timestamp", "0"), ("event", "\"\""), ("content-state", "null"),
        ("attributes-type", "\"\""), ("dismissal-date", "1700000000")] = some "1700000000" :=
  ⟨(c3_dismissal_date {}).1
      [("timestamp", "0"), ("event", "\"\""), ("content-state", "null"),
        ("attributes-type", "\"\"")] rfl (by decide),
   (c3_dismissal_date {}).2.1
      [("timestamp", "0"), ("event", "\"\""), ("content-state", "null"),
        ("attributes-type", "\"\""), ("dismissal-date", "1700000000")] (by decide)⟩


theorem alertFieldOf_goval_isSome {v : GoValue} (hv : (marshalGoValue v).isSome = true) :
    (alertFieldOf (AlertField.goval v)).isSome = true := by
  cases v with
  | nil => simp [alertFieldOf]
  | str s => simp [alertFieldOf, marshalGoValue]
  | int n => simp [alertFieldOf, marshalGoValue]
  | strList xs => simp [alertFieldOf, marshalGoValue]
  | mapVal m =>
      cases hm : marshalGoEntries m with
      | none => simp [marshalGoValue, hm] at hv
      | some es => simp [alertFieldOf, marshalGoValue, hm]
  | unsupported => simp [marshalGoValue] at hv

theorem apsObj_some_scalar {g : aps → aps}
    (hA : ∀ a, (g a).Alert = a.Alert) (hC : ∀ a, (g a).ContentState = a.ContentState)
    (hT : ∀ a, (g a).Attributes = a.Attributes) :
    ∀ a, (marshalApsObj a).isSome = true → (marshalApsObj (g a)).isSome = true := by
  intro a ha
  rw [marshalApsObj_isSome] at ha ⊢
  exact ⟨by rw [hA]; exact ha.1, by rw [hC]; exact ha.2.1, by rw [hT]; exact ha.2.2⟩

theorem apsObj_some_structured (blk : aps → alert) :
    ∀ a, (marshalApsObj a).isSome = true →
      (marshalApsObj { a with Alert := AlertField.structured (blk a) }).isSome = true := by
  intro a ha
  rw [marshalApsObj_isSome] at ha ⊢
  exact ⟨by simp [alertFieldOf], by simpa using ha.2.1, by simpa using ha.2.2⟩

theorem good_new : GoodPayload NewPayload := by
  intro kv hkv
  simp [NewPayload] at hkv
  subst hkv
  decide

theorem good_custom {p : Payload} (k : String) (v : GoValue) (hall : GoodPayload p)
    (hv : (marshalGoValue v).isSome = true) : GoodPayload (Payload.Custom p k v) := by
  intro kv hkv
  simp only [Payload.Custom] at hkv
  rcases mem_mapInsert hkv with rfl | hkv2
  · simpa [marshalTopValue] using hv
  · exact hall _ hkv2

theorem good_updAps {p q : Payload} (f : aps → aps) (hall : GoodPayload p)
    (hf : ∀ a, (marshalApsObj a).isSome = true → (marshalApsObj (f a)).isSome = true)
    (hq : p.updAps f = some q) : GoodPayload q := by
  unfold Payload.updAps at hq
  cases hl : lookupTop "aps" p.content with
  | none => rw [hl] at hq; simp at hq
  | some tv =>
      cases tv with
      | goval v => rw [hl] at hq; simp at hq
      | apsV a =>
          rw [hl] at hq
          simp only [Option.some.injEq] at hq
          subst hq
          intro kv hkv
          rcases mem_mapInsert hkv with rfl | hkv2
          · have hmem := lookupTop_mem hl
            have ha := hall _ hmem
            simpa [marshalTopValue] using hf a (by simpa [marshalTopValue] using ha)
          · exact hall _ hkv2

theorem serializableBuild_good : ∀ {p : Payload}, SerializableBuild p → GoodPayload p := by
  intro p h
  induction h with
  | new => exact good_new
  | alert p q v hb hv hop ih =>
      refine good_updAps _ ih (fun a ha => ?_) hop
      rw [marshalApsObj_isSome] at ha ⊢
      exact ⟨alertFieldOf_goval_isSome hv, by simpa using ha.2.1, by simpa using ha.2.2⟩
  | custom p k v hb hv ih => exact good_custom k v ih hv
  | mdm p s hb ih => exact good_custom "mdm" (GoValue.str s) ih (by simp [marshalGoValue])
  | timestamp p q t hb hop ih =>
      exact good_updAps (fun a => { a with Timestamp := t }) ih
        (apsObj_some_scalar (fun a => rfl) (fun a => rfl) (fun a => rfl)) hop
  | event p q e hb hop ih =>
      exact good_updAps (fun a => { a with Event := e }) ih
        (apsObj_some_scalar (fun a => rfl) (fun a => rfl) (fun a => rfl)) hop
  | contentState p q v hb hv hop ih =>
      refine good_updAps _ ih (fun a ha => ?_) hop
      rw [marshalApsObj_isSome] at ha ⊢
      exact ⟨by simpa using ha.1, by simpa using hv, by simpa using ha.2.2⟩
  | attributesType p q s hb hop ih =>
      exact good_updAps (fun a => { a with AttributesType := s }) ih
        (apsObj_some_scalar (fun a => rfl) (fun a => rfl) (fun a => rfl)) hop
  | attributes p q hb hop ih =>
      refine good_updAps _ ih (fun a ha => ?_) hop
      rw [marshalApsObj_isSome] at ha ⊢
      exact ⟨by simpa using ha.1, by simpa using ha.2.1,
        by simp [marshalGoValue, marshalGoEntries]⟩
  | alertTitle p q t hb hop ih =>
      exact good_updAps _ ih (apsObj_some_structured _) hop
  | alertTitleLocKey p q t hb hop ih =>
      exact good_updAps _ ih (apsObj_some_structured _) hop
  | alertTitleLocArgs p q xs hb hop ih =>
      exact good_updAps _ ih (apsObj_some_structured _) hop
  | alertSubtitle p q t hb hop ih =>
      exact good_updAps _ ih (apsObj_some_structured _) hop
  | alertBody p q t hb hop ih =>
      exact good_updAps _ ih (apsObj_some_structured _) hop
  | alertLaunchImage p q t hb hop ih =>
      exact good_updAps _ ih (apsObj_some_structured _) hop
  | alertLocArgs p q xs hb hop ih =>
      exact good_updAps _ ih (apsObj_some_structured _) hop
  | alertLocKey p q t hb hop ih =>
      exact good_updAps _ ih (apsObj_some_structured _) hop
  | alertAction p q t hb hop ih =>
      exact good_updAps _ ih (apsObj_some_structured _) hop
  | alertActionLocKey p q t hb hop ih =>
      exact good_updAps _ ih (apsObj_some_structured _) hop
  | alertSummaryArg p q t hb hop ih =>
      exact good_updAps _ ih (apsObj_some_structured _) hop
  | alertSummaryArgCount p q n hb hop ih =>
      exact good_updAps _ ih (apsObj_some_structured _) hop

/-- C5: serialization fails only on non-serializable caller-supplied
data: along every builder run in which each caller-supplied value
marshals - in particular every run using only the string/integer
setters and string alerts - `MarshalJSON` succeeds; its failure branch
is unreachable from builder-internal state. -/
theorem c5_serialize_total_on_clean_builds (p : Payload) (h : SerializableBuild p) :
    (Payload.MarshalJSON p).isSome = true := by
  have hall := serializableBuild_good h
  have hent : (marshalEntriesTop p.content).isSome = true :=
    (marshalEntriesTop_isSome _).mpr hall
  unfold Payload.MarshalJSON
  cases he : marshalEntriesTop p.content with
  | none => rw [he] at hent; simp at hent
  | some es => simp

/-- Witness for C5 on the run `NewPayload.Mdm "m"`. -/
theorem c5_serialize_total_witness :
    (Payload.MarshalJSON (Payload.Mdm NewPayload "m")).isSome = true :=
  c5_serialize_total_on_clean_builds _ (SerializableBuild.mdm NewPayload "m" SerializableBuild.new)
